import Mathlib

/-!
Verification of the periodized-aggregation pipeline of
`Modeling-Traffic-with-Markov-Chains` (`src/pdf.py`).

The script loads a CSV of (Time, State, Probability) rows, filters the rows
into three fixed time periods, computes per-period per-state mean
probabilities, renders a chart (one line per distinct state, points in
dataset order), fills an HTML template reading each aggregate entry with a
default of 0, writes the HTML file, and finally attempts a PDF export inside
a try/except that prints an error message on failure.

Times and probabilities are embedded as rationals; a dataset is the ordered
list of its rows.
-/

namespace Traffic

/-- One row of the input table: columns `Time`, `State`, `Probability`. -/
structure Observation where
  time : ℚ
  state : String
  probability : ℚ
deriving DecidableEq, Repr

/-- The boolean mask `(df['Time'] >= 8) & (df['Time'] < 16)` of `pdf.py` line 11. -/
def inEarly (o : Observation) : Bool :=
  decide (8 ≤ o.time) && decide (o.time < 16)

/-- The boolean mask `(df['Time'] >= 16) & (df['Time'] < 18)` of `pdf.py` line 12. -/
def inRushHour (o : Observation) : Bool :=
  decide (16 ≤ o.time) && decide (o.time < 18)

/-- The boolean mask `(df['Time'] >= 18) & (df['Time'] <= 20)` of `pdf.py` line 13. -/
def inLate (o : Observation) : Bool :=
  decide (18 ≤ o.time) && decide (o.time ≤ 20)

/-- Embeds `early_period = df[(df['Time'] >= 8) & (df['Time'] < 16)]`. -/
def early_period (df : List Observation) : List Observation :=
  df.filter inEarly

/-- Embeds `rush_hour_period = df[(df['Time'] >= 16) & (df['Time'] < 18)]`. -/
def rush_hour_period (df : List Observation) : List Observation :=
  df.filter inRushHour

/-- Embeds `late_period = df[(df['Time'] >= 18) & (df['Time'] <= 20)]`. -/
def late_period (df : List Observation) : List Observation :=
  df.filter inLate

/-- The `Probability` column of the rows of `df` whose `State` equals `s`
(the group that `groupby('State')` forms for label `s`). -/
def groupProbs (df : List Observation) (s : String) : List ℚ :=
  (df.filter (fun o => o.state == s)).map Observation.probability

/-- `groupby('State')['Probability'].mean()` looked up at state label `s`:
pandas forms one group per state value actually present, so the entry is
absent (`none`) when no row of `df` has state `s`, and otherwise holds the
arithmetic mean of the group's probabilities.  The trailing `.fillna(0)` of
`pdf.py` lines 15-17 does not add entries for absent groups. -/
def groupMean (df : List Observation) (s : String) : Option ℚ :=
  let ps := groupProbs df s
  if ps.isEmpty then none else some (ps.sum / (ps.length : ℚ))

/-- Embeds `avg_prob_early = early_period.groupby('State')['Probability'].mean().fillna(0)`. -/
def avg_prob_early (df : List Observation) (s : String) : Option ℚ :=
  groupMean (early_period df) s

/-- Embeds `avg_prob_rush_hour = rush_hour_period.groupby('State')['Probability'].mean().fillna(0)`. -/
def avg_prob_rush_hour (df : List Observation) (s : String) : Option ℚ :=
  groupMean (rush_hour_period df) s

/-- Embeds `avg_prob_late = late_period.groupby('State')['Probability'].mean().fillna(0)`. -/
def avg_prob_late (df : List Observation) (s : String) : Option ℚ :=
  groupMean (late_period df) s

/-- The aggregation block of `pdf.py` lines 11-17 as one value: the three
per-period per-state mean maps. -/
structure AggregateResult where
  early : String → Option ℚ
  rushHour : String → Option ℚ
  late : String → Option ℚ

theorem AggregateResult.ext_iff₂ {a b : AggregateResult}
    (he : a.early = b.early) (hr : a.rushHour = b.rushHour)
    (hl : a.late = b.late) : a = b := by
  cases a; cases b; simp_all

/-- Running the aggregation block on a dataset. -/
def aggregate (df : List Observation) : AggregateResult :=
  { early := avg_prob_early df
    rushHour := avg_prob_rush_hour df
    late := avg_prob_late df }

/-- The aggregation block as a pipeline step: pandas boolean indexing and
`groupby(...).mean()` return fresh objects, so the step yields the result
together with the untouched input dataset. -/
def aggregateStep (df : List Observation) : AggregateResult × List Observation :=
  (aggregate df, df)

/-- Spec-side selection (spec 4.1 and 8): the rows whose `time` lies in the
period interval `[lo, hi)` (or `[lo, hi]` when `hiClosed`) and whose `state`
equals `s`.  This definition follows the spec wording and is compared with
the code-side `avg_prob_*` definitions above. -/
def specRows (lo hi : ℚ) (hiClosed : Bool) (s : String) (df : List Observation) :
    List Observation :=
  df.filter fun o =>
    (decide (lo ≤ o.time) &&
      (if hiClosed then decide (o.time ≤ hi) else decide (o.time < hi))) &&
    (o.state == s)

/-- Spec-side mean (spec 4.1 and 8): the arithmetic mean of `probability`
over exactly the selected rows, absent when no such rows exist. -/
def specMean (lo hi : ℚ) (hiClosed : Bool) (s : String) (df : List Observation) :
    Option ℚ :=
  if (specRows lo hi hiClosed s df).isEmpty then none
  else some (((specRows lo hi hiClosed s df).map Observation.probability).sum
    / ((specRows lo hi hiClosed s df).length : ℚ))

/-- First-occurrence deduplication with an accumulator of already-seen
labels; `uniqueAux [] l` returns the distinct elements of `l` in order of
first appearance, which is what pandas `Series.unique()` yields. -/
def uniqueAux (seen : List String) : List String → List String
  | [] => []
  | s :: rest =>
      if seen.contains s then uniqueAux seen rest
      else s :: uniqueAux (s :: seen) rest

/-- Embeds `df['State'].unique()` of the plotting loop (`pdf.py` line 21). -/
def uniqueStates (df : List Observation) : List String :=
  uniqueAux [] (df.map Observation.state)

/-- Embeds the plotting loop of `pdf.py` lines 21-23: one series per element
of `df['State'].unique()`; a state's series is
`plt.plot(state_data['Time'], state_data['Probability'])` where
`state_data = df[df['State'] == state]`, so the points stand in the order in
which the rows stand in `df`. -/
def chartSeries (df : List Observation) : List (String × List (ℚ × ℚ)) :=
  (uniqueStates df).map fun s =>
    (s, (df.filter fun o => o.state == s).map fun o => (o.time, o.probability))

/-- The nine values passed to `template.render` (`pdf.py` lines 88-97): each
is an aggregate entry read with `.get(state, 0)`, row-major over
(Early, RushHour, Late) × (Light, Heavy, Gridlock). -/
def reportValues (df : List Observation) : List ℚ :=
  [(avg_prob_early df "Light").getD 0,
   (avg_prob_early df "Heavy").getD 0,
   (avg_prob_early df "Gridlock").getD 0,
   (avg_prob_rush_hour df "Light").getD 0,
   (avg_prob_rush_hour df "Heavy").getD 0,
   (avg_prob_rush_hour df "Gridlock").getD 0,
   (avg_prob_late df "Light").getD 0,
   (avg_prob_late df "Heavy").getD 0,
   (avg_prob_late df "Gridlock").getD 0]

/-- Observable events of the tail of the script. -/
inductive Event where
  | wroteHtml
  | wrotePdf
  | printedMsg (s : String)
  | raisedOut
deriving DecidableEq, Repr

/-- Embeds the tail of `pdf.py` (the `f.write(html_content)` block followed
by the `try: pdfkit.from_file(...) except Exception as e: print(...)`
block) as the trace of observable events.  The HTML file is written
unconditionally before the `try` block; when the exporter raises, the
`except` clause prints `"Error generating PDF: " + str(e)` and falls off the
end of the script, so no exception escapes (`Event.raisedOut` never occurs). -/
def pipelineTail (exporterRaises : Bool) (errMsg : String) : List Event :=
  [Event.wroteHtml] ++
    (if exporterRaises then
      [Event.printedMsg ("Error generating PDF: " ++ errMsg)]
    else
      [Event.wrotePdf, Event.printedMsg "PDF report generated successfully!"])

/-! ### Helper lemmas -/

theorem mem_uniqueAux (a : String) :
    ∀ (l seen : List String), a ∈ uniqueAux seen l ↔ a ∈ l ∧ a ∉ seen := by
  intro l
  induction l with
  | nil => intro seen; simp [uniqueAux]
  | cons s rest ih =>
      intro seen
      by_cases hs : seen.contains s
      · rw [uniqueAux, if_pos hs, ih]
        have hsm : s ∈ seen := by simpa using hs
        constructor
        · rintro ⟨h1, h2⟩; exact ⟨List.mem_cons_of_mem _ h1, h2⟩
        · rintro ⟨h1, h2⟩
          rcases List.mem_cons.mp h1 with rfl | h1
          · exact absurd hsm h2
          · exact ⟨h1, h2⟩
      · rw [uniqueAux, if_neg hs]
        have hsm : s ∉ seen := by simpa using hs
        by_cases has : a = s
        · subst has
          simp [hsm]
        · simp only [List.mem_cons, has, false_or]
          rw [ih]
          simp [has]

theorem nodup_uniqueAux : ∀ (l seen : List String), (uniqueAux seen l).Nodup := by
  intro l
  induction l with
  | nil => intro seen; simp [uniqueAux]
  | cons s rest ih =>
      intro seen
      by_cases hs : seen.contains s
      · rw [uniqueAux, if_pos hs]; exact ih seen
      · rw [uniqueAux, if_neg hs]
        refine List.nodup_cons.mpr ⟨?_, ih (s :: seen)⟩
        intro hmem
        exact ((mem_uniqueAux s rest (s :: seen)).mp hmem).2 (List.mem_cons_self s seen)

theorem mem_uniqueStates (df : List Observation) (s : String) :
    s ∈ uniqueStates df ↔ s ∈ df.map Observation.state := by
  rw [uniqueStates, mem_uniqueAux]
  simp

theorem nodup_uniqueStates (df : List Observation) : (uniqueStates df).Nodup :=
  nodup_uniqueAux _ []

theorem filter_state_filter (p : Observation → Bool) (df : List Observation) (s : String) :
    (df.filter p).filter (fun o => o.state == s)
      = df.filter fun o => p o && (o.state == s) := by
  rw [List.filter_filter]
  exact List.filter_congr fun a _ => Bool.and_comm _ _

theorem groupMean_filter (p : Observation → Bool) (df : List Observation) (s : String) :
    groupMean (df.filter p) s =
      (if (df.filter fun o => p o && (o.state == s)).isEmpty then none
       else some (((df.filter fun o => p o && (o.state == s)).map Observation.probability).sum
         / (((df.filter fun o => p o && (o.state == s)).length : ℚ)))) := by
  rw [groupMean, groupProbs, filter_state_filter]
  cases df.filter fun o => p o && (o.state == s) <;>
    simp [List.isEmpty]

theorem groupMean_eq_specMean (pB : Observation → Bool) (lo hi : ℚ) (hc : Bool)
    (hpred : ∀ o, pB o =
      (decide (lo ≤ o.time) &&
        (if hc then decide (o.time ≤ hi) else decide (o.time < hi))))
    (df : List Observation) (s : String) :
    groupMean (df.filter pB) s = specMean lo hi hc s df := by
  have hrows : specRows lo hi hc s df = df.filter fun o => pB o && (o.state == s) :=
    List.filter_congr fun a _ => by rw [hpred]
  rw [groupMean_filter]
  unfold specMean
  rw [hrows]

theorem specMean_none_iff (lo hi : ℚ) (hc : Bool) (s : String) (df : List Observation) :
    specMean lo hi hc s df = none ↔ specRows lo hi hc s df = [] := by
  unfold specMean
  by_cases h : (specRows lo hi hc s df).isEmpty
  · simp [h, List.isEmpty_iff.mp h]
  · simp [h]
    exact fun hnil => h (by simp [hnil])

/-! ### Claim theorems -/

/-- C1: for every dataset, the aggregate output for period P
(Early = [8,16), RushHour = [16,18), Late = [18,20]) and state S equals the
arithmetic mean of `probability` over exactly the rows whose `time` lies in
P's interval and whose `state` equals S, and the (P,S) entry is absent from
the result whenever no such rows exist. -/
theorem aggregate_matches_spec_mean (df : List Observation) (s : String) :
    avg_prob_early df s = specMean 8 16 false s df ∧
    avg_prob_rush_hour df s = specMean 16 18 false s df ∧
    avg_prob_late df s = specMean 18 20 true s df ∧
    (avg_prob_early df s = none ↔ specRows 8 16 false s df = []) ∧
    (avg_prob_rush_hour df s = none ↔ specRows 16 18 false s df = []) ∧
    (avg_prob_late df s = none ↔ specRows 18 20 true s df = []) := by
  have he : avg_prob_early df s = specMean 8 16 false s df :=
    groupMean_eq_specMean inEarly 8 16 false (fun o => rfl) df s
  have hr : avg_prob_rush_hour df s = specMean 16 18 false s df :=
    groupMean_eq_specMean inRushHour 16 18 false (fun o => rfl) df s
  have hl : avg_prob_late df s = specMean 18 20 true s df :=
    groupMean_eq_specMean inLate 18 20 true (fun o => rfl) df s
  exact ⟨he, hr, hl, he ▸ specMean_none_iff 8 16 false s df,
    hr ▸ specMean_none_iff 16 18 false s df,
    hl ▸ specMean_none_iff 18 20 true s df⟩

/-- C2: an observation with `time == 16` is selected into the RushHour
period and not into the Early period, and an observation with `time == 20`
is selected into the Late period (Early and RushHour are right-open, Late
is closed at both ends). -/
theorem boundary_16_in_rush_20_in_late (df : List Observation)
    (o16 o20 : Observation) (h16 : o16.time = 16) (h20 : o20.time = 20) :
    (o16 ∈ rush_hour_period df ↔ o16 ∈ df) ∧
    (early_period df).contains o16 = false ∧
    (o20 ∈ late_period df ↔ o20 ∈ df) := by
  have hR : inRushHour o16 = true := by
    simp only [inRushHour, h16, Bool.and_eq_true, decide_eq_true_eq]
    norm_num
  have hE : inEarly o16 = false := by
    simp only [inEarly, h16]
    norm_num
  have hL : inLate o20 = true := by
    simp only [inLate, h20, Bool.and_eq_true, decide_eq_true_eq]
    norm_num
  refine ⟨?_, ?_, ?_⟩
  · simp [rush_hour_period, List.mem_filter, hR]
  · simp [early_period, List.mem_filter, hE]
  · simp [late_period, List.mem_filter, hL]

/-- C2 witness: a dataset holding a row at time 16 and a row at time 20. -/
theorem boundary_16_in_rush_20_in_late_witness :
    ((⟨16, "Light", 0⟩ : Observation) ∈
        rush_hour_period [⟨16, "Light", 0⟩, ⟨20, "Heavy", 1⟩] ↔
      (⟨16, "Light", 0⟩ : Observation) ∈
        [(⟨16, "Light", 0⟩ : Observation), ⟨20, "Heavy", 1⟩]) ∧
    (early_period [⟨16, "Light", 0⟩, ⟨20, "Heavy", 1⟩]).contains
      ⟨16, "Light", 0⟩ = false ∧
    ((⟨20, "Heavy", 1⟩ : Observation) ∈
        late_period [⟨16, "Light", 0⟩, ⟨20, "Heavy", 1⟩] ↔
      (⟨20, "Heavy", 1⟩ : Observation) ∈
        [(⟨16, "Light", 0⟩ : Observation), ⟨20, "Heavy", 1⟩]) :=
  boundary_16_in_rush_20_in_late [⟨16, "Light", 0⟩, ⟨20, "Heavy", 1⟩]
    ⟨16, "Light", 0⟩ ⟨20, "Heavy", 1⟩ rfl rfl

/-- C4: for the empty dataset, every period's mean map is empty for every
state, and the nine template reads (get with default 0) all render 0. -/
theorem empty_dataset_aggregate (s : String) :
    avg_prob_early [] s = none ∧
    avg_prob_rush_hour [] s = none ∧
    avg_prob_late [] s = none ∧
    reportValues [] = List.replicate 9 0 :=
  ⟨rfl, rfl, rfl, rfl⟩

/-- C7: the aggregation block is a pure function of its input dataset:
the step leaves the dataset unchanged, and running it a second time on the
dataset the first run hands back yields the identical result. -/
theorem aggregate_pure_idempotent (df : List Observation) :
    (aggregateStep df).2 = df ∧
    (aggregateStep (aggregateStep df).2).1 = (aggregateStep df).1 :=
  ⟨rfl, rfl⟩

/-- C10: the three period filters are pairwise disjoint: every observation
passes at most one of the Early, RushHour and Late masks, so no row
contributes to more than one period's mean. -/
theorem periods_pairwise_disjoint (o : Observation) :
    (inEarly o).toNat + (inRushHour o).toNat + (inLate o).toNat ≤ 1 := by
  rcases lt_or_le o.time 16 with h | h
  · have h1 : ¬ (16 ≤ o.time) := by linarith
    have h2 : ¬ (18 ≤ o.time) := by linarith
    have hR : inRushHour o = false := by simp [inRushHour, h1]
    have hL : inLate o = false := by simp [inLate, h2]
    simp only [hR, hL, Bool.toNat_false, add_zero]
    exact Bool.toNat_le _
  · have hE : inEarly o = false := by
      have : ¬ (o.time < 16) := by linarith
      simp [inEarly, this]
    rcases lt_or_le o.time 18 with h18 | h18
    · have hL : inLate o = false := by
        have : ¬ (18 ≤ o.time) := by linarith
        simp [inLate, this]
      simp only [hE, hL, Bool.toNat_false, add_zero, zero_add]
      exact Bool.toNat_le _
    · have hR : inRushHour o = false := by
        have : ¬ (o.time < 18) := by linarith
        simp [inRushHour, this]
      simp only [hE, hR, Bool.toNat_false, add_zero, zero_add]
      exact Bool.toNat_le _

/-- C6: for the dataset [(8, Light, 0.2), (9, Light, 0.4), (17, Heavy, 0.9)]
the aggregate has Early.Light = 0.3, Early.Heavy absent (read as 0),
RushHour.Heavy = 0.9, RushHour.Light absent (read as 0), and the Late
period's mapping is empty for every state. -/
theorem scenario_three_rows :
    avg_prob_early [⟨8, "Light", 1/5⟩, ⟨9, "Light", 2/5⟩, ⟨17, "Heavy", 9/10⟩] "Light"
        = some (3/10) ∧
    avg_prob_early [⟨8, "Light", 1/5⟩, ⟨9, "Light", 2/5⟩, ⟨17, "Heavy", 9/10⟩] "Heavy"
        = none ∧
    (avg_prob_early [⟨8, "Light", 1/5⟩, ⟨9, "Light", 2/5⟩, ⟨17, "Heavy", 9/10⟩] "Heavy").getD 0
        = 0 ∧
    avg_prob_rush_hour [⟨8, "Light", 1/5⟩, ⟨9, "Light", 2/5⟩, ⟨17, "Heavy", 9/10⟩] "Heavy"
        = some (9/10) ∧
    avg_prob_rush_hour [⟨8, "Light", 1/5⟩, ⟨9, "Light", 2/5⟩, ⟨17, "Heavy", 9/10⟩] "Light"
        = none ∧
    (avg_prob_rush_hour [⟨8, "Light", 1/5⟩, ⟨9, "Light", 2/5⟩, ⟨17, "Heavy", 9/10⟩] "Light").getD 0
        = 0 ∧
    late_period [⟨8, "Light", 1/5⟩, ⟨9, "Light", 2/5⟩, ⟨17, "Heavy", 9/10⟩] = [] ∧
    ∀ s, avg_prob_late [⟨8, "Light", 1/5⟩, ⟨9, "Light", 2/5⟩, ⟨17, "Heavy", 9/10⟩] s
        = none := by
  refine ⟨?_, ?_, ?_, ?_, ?_, ?_, ?_, ?_⟩
  · norm_num [avg_prob_early, groupMean, groupProbs, early_period, inEarly,
      List.filter_cons]
  · norm_num [avg_prob_early, groupMean, groupProbs, early_period, inEarly,
      List.filter_cons]
    decide
  · norm_num [avg_prob_early, groupMean, groupProbs, early_period, inEarly,
      List.filter_cons]
    decide
  · norm_num [avg_prob_rush_hour, groupMean, groupProbs, rush_hour_period, inRushHour,
      List.filter_cons]
  · norm_num [avg_prob_rush_hour, groupMean, groupProbs, rush_hour_period, inRushHour,
      List.filter_cons]
    decide
  · norm_num [avg_prob_rush_hour, groupMean, groupProbs, rush_hour_period, inRushHour,
      List.filter_cons]
    decide
  · norm_num [late_period, inLate, List.filter_cons]
  · intro s
    norm_num [avg_prob_late, groupMean, groupProbs, late_period, inLate,
      List.filter_cons]

/-- C3: in every run in which the exporter raises, the trace of the script
tail writes the HTML file strictly before the error message is printed, a
human-readable message naming the cause is printed, and no exception
escapes the script (normal termination). -/
theorem export_failure_graceful (errMsg : String) :
    (∃ i j : Fin (pipelineTail true errMsg).length, (i : ℕ) < (j : ℕ) ∧
      (pipelineTail true errMsg).get i = Event.wroteHtml ∧
      (pipelineTail true errMsg).get j
        = Event.printedMsg ("Error generating PDF: " ++ errMsg)) ∧
    (pipelineTail true errMsg).count Event.raisedOut = 0 :=
  ⟨⟨⟨0, by simp [pipelineTail]⟩, ⟨1, by simp [pipelineTail]⟩,
    Nat.zero_lt_one, rfl, rfl⟩, rfl⟩

theorem out_of_range_masks_false (o : Observation)
    (h : o.time < 8 ∨ 20 < o.time) :
    inEarly o = false ∧ inRushHour o = false ∧ inLate o = false := by
  rcases h with h | h
  · have h1 : ¬ (8 ≤ o.time) := by linarith
    have h2 : ¬ (16 ≤ o.time) := by linarith
    have h3 : ¬ (18 ≤ o.time) := by linarith
    exact ⟨by simp [inEarly, h1], by simp [inRushHour, h2], by simp [inLate, h3]⟩
  · have h1 : ¬ (o.time < 16) := by linarith
    have h2 : ¬ (o.time < 18) := by linarith
    have h3 : ¬ (o.time ≤ 20) := by linarith
    exact ⟨by simp [inEarly, h1], by simp [inRushHour, h2], by simp [inLate, h3]⟩

/-- C9: an observation whose `time` is below 8 or above 20 passes none of
the three period masks, so appending it to a dataset leaves all three
period selections, and hence the whole aggregate result, unchanged. -/
theorem out_of_range_row_no_effect (df : List Observation) (o : Observation)
    (h : o.time < 8 ∨ 20 < o.time) :
    inEarly o = false ∧ inRushHour o = false ∧ inLate o = false ∧
    early_period (df ++ [o]) = early_period df ∧
    rush_hour_period (df ++ [o]) = rush_hour_period df ∧
    late_period (df ++ [o]) = late_period df ∧
    aggregate (df ++ [o]) = aggregate df := by
  obtain ⟨hE, hR, hL⟩ := out_of_range_masks_false o h
  have he : early_period (df ++ [o]) = early_period df := by
    simp [early_period, List.filter_append, hE]
  have hr : rush_hour_period (df ++ [o]) = rush_hour_period df := by
    simp [rush_hour_period, List.filter_append, hR]
  have hl : late_period (df ++ [o]) = late_period df := by
    simp [late_period, List.filter_append, hL]
  refine ⟨hE, hR, hL, he, hr, hl, ?_⟩
  refine AggregateResult.ext_iff₂ ?_ ?_ ?_
  · funext s; show groupMean (early_period (df ++ [o])) s = _; rw [he]; rfl
  · funext s; show groupMean (rush_hour_period (df ++ [o])) s = _; rw [hr]; rfl
  · funext s; show groupMean (late_period (df ++ [o])) s = _; rw [hl]; rfl

/-- C9 witness: appending a row at time 7 to a one-row dataset changes
nothing. -/
theorem out_of_range_row_no_effect_witness :
    ((⟨7, "Heavy", 1⟩ : Observation).time < 8 ∨
        20 < (⟨7, "Heavy", 1⟩ : Observation).time) ∧
    (inEarly ⟨7, "Heavy", 1⟩ = false ∧ inRushHour ⟨7, "Heavy", 1⟩ = false ∧
      inLate ⟨7, "Heavy", 1⟩ = false ∧
      early_period ([⟨9, "Light", 0⟩] ++ [⟨7, "Heavy", 1⟩])
        = early_period [⟨9, "Light", 0⟩] ∧
      rush_hour_period ([⟨9, "Light", 0⟩] ++ [⟨7, "Heavy", 1⟩])
        = rush_hour_period [⟨9, "Light", 0⟩] ∧
      late_period ([⟨9, "Light", 0⟩] ++ [⟨7, "Heavy", 1⟩])
        = late_period [⟨9, "Light", 0⟩] ∧
      aggregate ([⟨9, "Light", 0⟩] ++ [⟨7, "Heavy", 1⟩])
        = aggregate [⟨9, "Light", 0⟩]) :=
  ⟨Or.inl (by norm_num),
    out_of_range_row_no_effect [⟨9, "Light", 0⟩] ⟨7, "Heavy", 1⟩
      (Or.inl (by norm_num))⟩

/-- C8 counterexample: the plot loop draws the points of a series in the
order the rows stand in the dataset, so on the dataset
[(9, Light, 1), (8, Light, 0)] the Light series is [(9,1), (8,0)], which is
not ordered by time ascending; the claim fails as stated. -/
theorem chart_time_order_counterexample :
    ¬ ∀ (df : List Observation), ∀ p ∈ chartSeries df,
        List.Chain' (fun a b : ℚ × ℚ => a.1 ≤ b.1) p.2 := by
  intro hclaim
  have hmem : ("Light", [((9:ℚ), (1:ℚ)), ((8:ℚ), (0:ℚ))])
      ∈ chartSeries [⟨9, "Light", 1⟩, ⟨8, "Light", 0⟩] := by decide
  have hch := hclaim _ _ hmem
  revert hch
  simp [List.chain'_cons]
  norm_num

/-- C8 (amended): for every dataset the chart renderer draws exactly one
line series per distinct `state` value present, and within each state's
series the points appear in dataset (row) order; whenever the dataset's
times are nondecreasing, each series is therefore ordered by `time`
ascending. -/
theorem chart_series_per_state_dataset_order (df : List Observation) :
    ((chartSeries df).map Prod.fst).Nodup ∧
    (∀ s, s ∈ (chartSeries df).map Prod.fst ↔ s ∈ df.map Observation.state) ∧
    (∀ p ∈ chartSeries df,
      p.2 = (df.filter fun o => o.state == p.1).map fun o => (o.time, o.probability)) ∧
    (List.Chain' (fun a b : Observation => a.time ≤ b.time) df →
      ∀ p ∈ chartSeries df, List.Chain' (fun a b : ℚ × ℚ => a.1 ≤ b.1) p.2) := by
  have hfst : (chartSeries df).map Prod.fst = uniqueStates df := by
    simp [chartSeries, List.map_map, Function.comp_def]
  refine ⟨?_, ?_, ?_, ?_⟩
  · rw [hfst]; exact nodup_uniqueStates df
  · intro s; rw [hfst]; exact mem_uniqueStates df s
  · intro p hp
    obtain ⟨s, hs, rfl⟩ := List.mem_map.mp hp
    rfl
  · intro hsorted p hp
    obtain ⟨s, hs, rfl⟩ := List.mem_map.mp hp
    haveI : IsTrans Observation (fun a b => a.time ≤ b.time) :=
      ⟨fun a b c h1 h2 => le_trans h1 h2⟩
    haveI : IsTrans (ℚ × ℚ) (fun a b : ℚ × ℚ => a.1 ≤ b.1) :=
      ⟨fun a b c h1 h2 => le_trans h1 h2⟩
    rw [List.chain'_iff_pairwise] at hsorted
    show List.Chain' _
      ((df.filter fun o => o.state == s).map fun o => (o.time, o.probability))
    rw [List.chain'_iff_pairwise, List.pairwise_map]
    exact hsorted.sublist (List.filter_sublist df)

/-- C8 witness: the amended statement instantiated at a concrete two-row
dataset with two states. -/
theorem chart_series_per_state_dataset_order_witness :
    ((chartSeries [⟨8, "Light", 0⟩, ⟨9, "Heavy", 1⟩]).map Prod.fst).Nodup ∧
    (∀ s, s ∈ (chartSeries [⟨8, "Light", 0⟩, ⟨9, "Heavy", 1⟩]).map Prod.fst ↔
      s ∈ [(⟨8, "Light", 0⟩ : Observation), ⟨9, "Heavy", 1⟩].map Observation.state) ∧
    (∀ p ∈ chartSeries [⟨8, "Light", 0⟩, ⟨9, "Heavy", 1⟩],
      p.2 = ([(⟨8, "Light", 0⟩ : Observation), ⟨9, "Heavy", 1⟩].filter
        fun o => o.state == p.1).map fun o => (o.time, o.probability)) ∧
    (List.Chain' (fun a b : Observation => a.time ≤ b.time)
        [⟨8, "Light", 0⟩, ⟨9, "Heavy", 1⟩] →
      ∀ p ∈ chartSeries [⟨8, "Light", 0⟩, ⟨9, "Heavy", 1⟩],
        List.Chain' (fun a b : ℚ × ℚ => a.1 ≤ b.1) p.2) :=
  chart_series_per_state_dataset_order [⟨8, "Light", 0⟩, ⟨9, "Heavy", 1⟩]

end Traffic
